import Mathlib

/-!
Verification of the directory-scoped batch test-generation workflow of
claude_test_generator.py, and of the sample calculator demo_calculator.py.

The Python code is shallowly embedded:
* the filesystem is an association list from path strings to file contents,
  plus a list of existing directories;
* the external agent (the claude_code_sdk query call) is opaque in the source,
  so it is a parameter: for a given source-file path it either writes the
  expected test file into the working directory, completes silently without
  writing, or raises;
* `write_text` may raise (disk errors); whether a given write succeeds is a
  parameter `writeOk`;
* exceptions are `Except`, with the mutated state returned alongside so that
  the effect of a raising call on the filesystem is visible.
-/

/-- Does the first list occur at the head of the second? -/
def charsStart : List Char → List Char → Bool
  | [], _ => true
  | _ :: _, [] => false
  | c :: cs, d :: ds => c = d && charsStart cs ds

/-- Python `str.startswith`: the pattern is an initial segment of the
character sequence. -/
def pyStartsWith (s pat : String) : Bool := charsStart pat.data s.data

/-- Python `str.endswith`: the pattern is a final segment of the
character sequence. -/
def pyEndsWith (s pat : String) : Bool := charsStart pat.data.reverse s.data.reverse

/-- Last component of a relative path given as a list of components
(the Python `python_file.name`). -/
def lastName : List String → String
  | [] => ""
  | [x] => x
  | _ :: x :: xs => lastName (x :: xs)

/-- Index of the last occurrence of a dot in a list of characters
(Python `name.rfind(".")` as an `Option`). -/
def lastDotIdx : List Char → Option Nat
  | [] => none
  | c :: cs =>
    match lastDotIdx cs with
    | some i => some (i + 1)
    | none => if c = '.' then some 0 else none

/-- `pathlib.PurePath.stem` on a file name: the name with its last suffix
removed; a dot at position 0 (hidden file) or at the very end does not
start a suffix. -/
def stem (name : String) : String :=
  let cs := name.data
  match lastDotIdx cs with
  | some i => if 0 < i ∧ i + 1 < cs.length then String.mk (cs.take i) else name
  | none => name

/-- `str(Path(d) / n)`: joining with an empty directory (`Path("")` is `.`)
yields just the name. -/
def joinPath (d n : String) : String :=
  if d = "" then n else d ++ "/" ++ n

/-- A directory entry: a plain file, or a subdirectory with its entries.
A directory handed to the batch generator is a `List FSTree` (its entries). -/
inductive FSTree where
  | file (name : String)
  | dir (name : String) (children : List FSTree)

/-- Relative paths (component lists) of the files matched by
`glob ("**/*.py")` in a list of directory entries, in enumeration order. -/
def globPyL : List FSTree → List (List String)
  | [] => []
  | .file n :: ts => (if pyEndsWith n ".py" then [[n]] else []) ++ globPyL ts
  | .dir n cs :: ts => (globPyL cs).map (fun p => n :: p) ++ globPyL ts

/-- The skip test of the batch loop on a file name: it starts with the
test-marker prefix or is exactly the package initializer. -/
def skipName (n : String) : Bool :=
  pyStartsWith n "test_" || n == "__init__.py"

/-- The skip test applied to a discovered file. -/
def skipFile (p : List String) : Bool :=
  skipName (lastName p)

/-- The eligible source files of a directory: the recursively globbed
`.py` files that the loop does not skip. -/
def eligiblePy (d : List FSTree) : List (List String) :=
  (globPyL d).filter (fun p => !skipFile p)

example : globPyL [.file "a.py", .dir "sub" [.file "b.py",
    .dir "deep" [.file "test_c.py", .file "__init__.py", .file "notes.txt"]]] =
    [["a.py"], ["sub", "b.py"], ["sub", "deep", "test_c.py"],
      ["sub", "deep", "__init__.py"]] := by simp only [globPyL]; decide

example : eligiblePy [.file "a.py", .dir "sub" [.file "b.py",
    .dir "deep" [.file "test_c.py", .file "__init__.py", .file "notes.txt"]]] =
    [["a.py"], ["sub", "b.py"]] := by simp only [eligiblePy, globPyL]; decide

example : stem "module1.py" = "module1" := by decide
example : stem ".py" = ".py" := by decide
example : stem "a.tar.gz" = "a.tar" := by decide

/-- The final path component of a path string (Python `Path(p).name` for the
simple relative/absolute paths this tool builds). -/
def lastComponent (s : String) : String :=
  String.mk ((s.data.reverse.takeWhile (fun c => c ≠ '/')).reverse)

/-- Filesystem state: files as an association list from path string to text
content (a write replaces the binding in place, or appends a new one), and
the list of existing directories. -/
structure FS where
  files : List (String × String)
  dirs : List String
  deriving DecidableEq

/-- Content of the file at a path, if it exists. -/
def lookupFile : List (String × String) → String → Option String
  | [], _ => none
  | (k, v) :: rest, p => if k = p then some v else lookupFile rest p

/-- `Path.write_text`: replace the content bound to a path, or bind a fresh
path; never creates a duplicate entry for an existing path. -/
def insertFile : List (String × String) → String → String → List (String × String)
  | [], k, v => [(k, v)]
  | (k1, v1) :: rest, k, v =>
    if k1 = k then (k, v) :: rest else (k1, v1) :: insertFile rest k v

def FS.write (fs : FS) (p c : String) : FS :=
  { fs with files := insertFile fs.files p c }

/-- `Path.mkdir (exist_ok := True)`: create the directory when absent; an
existing directory is not an error and the state is unchanged. -/
def FS.mkdirExistOk (fs : FS) (d : String) : FS :=
  if fs.dirs.contains d then fs else { fs with dirs := d :: fs.dirs }

/-- Outcome of one opaque agent invocation for a source file: the agent
writes the expected test file into the working directory, or completes
without writing it, or the call raises. -/
inductive AgentResult where
  | writes (content : String)
  | silent
  | fails (msg : String)
  deriving DecidableEq

/-- `ClaudeTestGenerator.analyze_python_file`: raise FileNotFoundError when
the path does not exist, else return `read_text ()`.  At this model's
granularity a path exists exactly when it is bound in `files`. -/
def analyze_python_file (fs : FS) (file_path : String) : Except String String :=
  match lookupFile fs.files file_path with
  | none => Except.error ("File not found: " ++ file_path)
  | some text => Except.ok text

/-- The working-directory artifact name the agent is asked to create:
`"test_" ++ stem ++ ".py"` from the stem of the source file. -/
def testFileName (python_file_path : String) : String :=
  "test_" ++ stem (lastComponent python_file_path) ++ ".py"

/-- `ClaudeTestGenerator.generate_tests`: run the agent call to completion;
then, trusting only the filesystem, read the expected test file back if it
now exists, and return `""` if it does not.  A raising agent call is the
`error` branch; the state reached so far is returned alongside. -/
def generate_tests (agent : String → AgentResult) (fs : FS)
    (python_file_path : String) : Except String (String × FS) :=
  match agent python_file_path with
  | .fails msg => Except.error msg
  | .silent =>
    match lookupFile fs.files (testFileName python_file_path) with
    | some test_code => Except.ok (test_code, fs)
    | none => Except.ok ("", fs)
  | .writes content =>
    let fs1 := fs.write (testFileName python_file_path) content
    match lookupFile fs1.files (testFileName python_file_path) with
    | some test_code => Except.ok (test_code, fs1)
    | none => Except.ok ("", fs1)

/-- State threaded through the directory loop: the filesystem, the
accumulated `generated_files`, and the log of artifact paths this component
itself wrote with `write_text` (agent writes are not logged here). -/
structure BatchSt where
  fs : FS
  generated_files : List String
  writeLog : List String
  deriving DecidableEq

/-- `str (python_file)` for a discovered file, relative to the scanned
directory. -/
def pathStr (directory_path : String) (pf : List String) : String :=
  joinPath directory_path (String.intercalate "/" pf)

/-- The artifact path the loop writes for one source file:
`output_dir / ("test_" ++ stem ++ ".py")`. -/
def outPath (output_dir : String) (pf : List String) : String :=
  joinPath output_dir ("test_" ++ stem (lastName pf) ++ ".py")

/-- One iteration of the directory loop: skip test files and `__init__.py`;
otherwise call `generate_tests` and write the result under the output
directory.  Any exception — from the agent call or from the write, whose
success is given by `writeOk` — is caught: the file is dropped and the loop
goes on. -/
def processFile (agent : String → AgentResult) (writeOk : String → Bool)
    (directory_path output_dir : String) (st : BatchSt) (pf : List String) :
    BatchSt :=
  if skipFile pf then st
  else
    match generate_tests agent st.fs (pathStr directory_path pf) with
    | Except.error _ => st
    | Except.ok (test_code, fs1) =>
      let test_file_path := outPath output_dir pf
      if writeOk test_file_path then
        { fs := fs1.write test_file_path test_code,
          generated_files := st.generated_files ++ [test_file_path],
          writeLog := st.writeLog ++ [test_file_path] }
      else
        { st with fs := fs1 }

/-- The whole directory loop: the body folded over the discovered files in
enumeration order. -/
def batchFold (agent : String → AgentResult) (writeOk : String → Bool)
    (dp od : String) (l : List (List String)) (st : BatchSt) : BatchSt :=
  l.foldl (processFile agent writeOk dp od) st

/-- `ClaudeTestGenerator.generate_tests_for_directory`: raise
FileNotFoundError when the directory does not exist; else create the output
directory if absent and run the loop over every globbed `.py` file.  The
directory argument is `none` when `directory_path` does not exist, and
`some entries` with the directory tree otherwise.  Returns the result (or
the uncaught precondition error), the final filesystem, and the log of
artifact writes performed. -/
def generate_tests_for_directory (agent : String → AgentResult)
    (writeOk : String → Bool) (directory_path : String)
    (dir : Option (List FSTree)) (fs : FS) (output_dir : String) :
    Except String (List String) × FS × List String :=
  match dir with
  | none => (Except.error ("Directory not found: " ++ directory_path), fs, [])
  | some entries =>
    let st0 : BatchSt := ⟨fs.mkdirExistOk output_dir, [], []⟩
    let final := batchFold agent writeOk directory_path output_dir
      (globPyL entries) st0
    (Except.ok final.generated_files, final.fs, final.writeLog)

deriving instance DecidableEq for Except

-- Concrete scenario of spec section 8, item 7.
example :
    generate_tests_for_directory
      (fun p => if p == "src/module1.py" then .writes "# t1"
        else if p == "src/module2.py" then .writes "# t2" else .silent)
      (fun _ => true) "src"
      (some [.file "module1.py", .file "module2.py"]) ⟨[], []⟩ "tests" =
    (Except.ok ["tests/test_module1.py", "tests/test_module2.py"],
      ⟨[("test_module1.py", "# t1"), ("tests/test_module1.py", "# t1"),
        ("test_module2.py", "# t2"), ("tests/test_module2.py", "# t2")],
        ["tests"]⟩,
      ["tests/test_module1.py", "tests/test_module2.py"]) := by
  simp only [generate_tests_for_directory, globPyL]
  decide

/-!
The sample calculator, demo_calculator.py.  Python runtime values are a
dynamic type; the fragment the calculator touches is embedded as `PyVal`.
`bool` is a subclass of `int` in Python, so booleans count as numbers for
`isinstance (a, (int, float))` and take part in arithmetic as 0 and 1.
Floats are idealized as rationals; the claims under test do not depend on
rounding.  A raising Python call is the `error` branch, paired with the
object state at the raise. -/

inductive PyVal where
  | intV (n : ℤ)
  | floatV (q : ℚ)
  | boolV (b : Bool)
  | strV (s : String)
  | noneV
  deriving DecidableEq

inductive PyErr where
  | typeError (msg : String)
  | valueError (msg : String)
  deriving DecidableEq

/-- `isinstance (x, (int, float))`. -/
def isNumber : PyVal → Bool
  | .intV _ => true
  | .floatV _ => true
  | .boolV _ => true
  | _ => false

/-- The integer behind an int-like value (`int` or `bool`). -/
def toIntOpt : PyVal → Option ℤ
  | .intV n => some n
  | .boolV b => some (if b then 1 else 0)
  | _ => none

/-- The numeric value of any number, as a rational. -/
def toRatOpt : PyVal → Option ℚ
  | .intV n => some n
  | .floatV q => some q
  | .boolV b => some (if b then 1 else 0)
  | _ => none

/-- Python `str (x)` for the embedded values; the float branch prints the
idealized rational. -/
def pyStr : PyVal → String
  | .intV n => toString n
  | .floatV q => toString q
  | .boolV b => if b then "True" else "False"
  | .strV s => s
  | .noneV => "None"

/-- `demo_calculator.add`: Python `a + b` — int-like operands give an int,
numeric operands give a float, strings concatenate, anything else raises
TypeError. -/
def add (a b : PyVal) : Except PyErr PyVal :=
  match a, b with
  | .strV s, .strV t => Except.ok (.strV (s ++ t))
  | _, _ =>
    match toIntOpt a, toIntOpt b with
    | some m, some n => Except.ok (.intV (m + n))
    | _, _ =>
      match toRatOpt a, toRatOpt b with
      | some p, some q => Except.ok (.floatV (p + q))
      | _, _ => Except.error (.typeError "unsupported operand type for +")

/-- `demo_calculator.multiply`: reject non-numbers with TypeError, then
Python `a * b` on numbers. -/
def multiply (a b : PyVal) : Except PyErr PyVal :=
  if !isNumber a || !isNumber b then
    Except.error (.typeError "Arguments must be numbers")
  else
    match toIntOpt a, toIntOpt b with
    | some m, some n => Except.ok (.intV (m * n))
    | _, _ =>
      match toRatOpt a, toRatOpt b with
      | some p, some q => Except.ok (.floatV (p * q))
      | _, _ => Except.error (.typeError "Arguments must be numbers")

structure Calculator where
  history : List String
  deriving DecidableEq

/-- The history line appended on success:
`f "\x7ba\x7d \x7boperation\x7d \x7bb\x7d = \x7bresult\x7d"`. -/
def historyEntry (operation : String) (a b result : PyVal) : String :=
  pyStr a ++ " " ++ operation ++ " " ++ pyStr b ++ " = " ++ pyStr result

/-- `Calculator.calculate`: dispatch on the operation name, raise ValueError
for an unsupported one; on success append one formatted line to the history
and return the result.  A raise leaves the calculator untouched. -/
def Calculator.calculate (c : Calculator) (operation : String) (a b : PyVal) :
    Except PyErr PyVal × Calculator :=
  match (if operation == "add" then add a b
    else if operation == "multiply" then multiply a b
    else Except.error (.valueError "Unsupported operation")) with
  | Except.error e => (Except.error e, c)
  | Except.ok result =>
    (Except.ok result, ⟨c.history ++ [historyEntry operation a b result]⟩)

example :
    (Calculator.mk []).calculate "add" (.intV 2) (.intV 3) =
    (Except.ok (.intV 5), ⟨["2 add 3 = 5"]⟩) := by decide

example :
    (Calculator.mk ["x"]).calculate "multiply" (.strV "a") (.intV 3) =
    (Except.error (.typeError "Arguments must be numbers"), ⟨["x"]⟩) := by
  decide

example :
    (Calculator.mk ["x"]).calculate "sub" (.intV 1) (.intV 2) =
    (Except.error (.valueError "Unsupported operation"), ⟨["x"]⟩) := by decide

/-! Association-list lemmas for the filesystem. -/

theorem lookupFile_insertFile (l : List (String × String)) (k v x : String) :
    lookupFile (insertFile l k v) x = if x = k then some v else lookupFile l x := by
  induction l with
  | nil =>
    by_cases h : k = x
    · subst h; simp [insertFile, lookupFile]
    · simp [insertFile, lookupFile, h, Ne.symm h]
  | cons hd t ih =>
    obtain ⟨k1, v1⟩ := hd
    by_cases hk : k1 = k
    · subst hk
      by_cases h : k1 = x
      · subst h; simp [insertFile, lookupFile]
      · simp [insertFile, lookupFile, h, Ne.symm h]
    · by_cases h : k1 = x
      · subst h
        simp [insertFile, lookupFile, hk]
      · simp [insertFile, lookupFile, hk, h, ih]

theorem lookupFile_insertFile_isSome (l : List (String × String)) (k v x : String) :
    (lookupFile (insertFile l k v) x).isSome ↔
      x = k ∨ (lookupFile l x).isSome := by
  rw [lookupFile_insertFile]
  by_cases h : x = k <;> simp [h]

/-! Step-level lemmas about the directory loop body. -/

theorem processFile_skip (agent : String → AgentResult) (writeOk : String → Bool)
    (dp od : String) (st : BatchSt) (pf : List String) (h : skipFile pf = true) :
    processFile agent writeOk dp od st pf = st := by
  simp [processFile, h]

theorem processFile_fail (agent : String → AgentResult) (writeOk : String → Bool)
    (dp od : String) (st : BatchSt) (pf : List String) (msg : String)
    (h : agent (pathStr dp pf) = AgentResult.fails msg) :
    processFile agent writeOk dp od st pf = st := by
  by_cases hs : skipFile pf
  · simp [processFile, hs]
  · simp [processFile, hs, generate_tests, h]

theorem generate_tests_ok (agent : String → AgentResult) (fs : FS) (p : String)
    (h : ∀ msg, agent p ≠ AgentResult.fails msg) :
    ∃ code fs1, generate_tests agent fs p = Except.ok (code, fs1) := by
  cases hg : agent p with
  | writes content => simp [generate_tests, hg, FS.write, lookupFile_insertFile]
  | silent =>
    cases hl : lookupFile fs.files (testFileName p) <;>
      simp [generate_tests, hg, hl]
  | fails msg => exact absurd hg (h msg)

theorem processFile_shape (agent : String → AgentResult) (writeOk : String → Bool)
    (dp od : String) (st : BatchSt) (pf : List String) :
    ((processFile agent writeOk dp od st pf).generated_files = st.generated_files ∧
      (processFile agent writeOk dp od st pf).writeLog = st.writeLog) ∨
    (skipFile pf = false ∧ writeOk (outPath od pf) = true ∧
      (processFile agent writeOk dp od st pf).generated_files =
        st.generated_files ++ [outPath od pf] ∧
      (processFile agent writeOk dp od st pf).writeLog =
        st.writeLog ++ [outPath od pf]) := by
  by_cases hs : skipFile pf
  · left; simp [processFile, hs]
  · cases hg : generate_tests agent st.fs (pathStr dp pf) with
    | error e => left; simp [processFile, hs, hg]
    | ok pr =>
      obtain ⟨code, fs1⟩ := pr
      by_cases hw : writeOk (outPath od pf)
      · right
        refine ⟨by simpa using hs, hw, ?_, ?_⟩ <;> simp [processFile, hs, hg, hw]
      · left; simp [processFile, hs, hg, hw]

/-- Whether an agent invocation raised. -/
def AgentResult.isFails : AgentResult → Bool
  | .fails _ => true
  | _ => false

/-! Lemmas about the folded loop. -/

theorem batchFold_cons (agent : String → AgentResult) (writeOk : String → Bool)
    (dp od : String) (p : List String) (ps : List (List String)) (st : BatchSt) :
    batchFold agent writeOk dp od (p :: ps) st =
      batchFold agent writeOk dp od ps (processFile agent writeOk dp od st p) := rfl

theorem batchFold_append (agent : String → AgentResult) (writeOk : String → Bool)
    (dp od : String) (l1 l2 : List (List String)) (st : BatchSt) :
    batchFold agent writeOk dp od (l1 ++ l2) st =
      batchFold agent writeOk dp od l2 (batchFold agent writeOk dp od l1 st) := by
  simp [batchFold, List.foldl_append]

theorem batchFold_filter_skip (agent : String → AgentResult)
    (writeOk : String → Bool) (dp od : String) :
    ∀ (l : List (List String)) (st : BatchSt),
    batchFold agent writeOk dp od l st =
      batchFold agent writeOk dp od (l.filter fun p => !skipFile p) st := by
  intro l
  induction l with
  | nil => intro st; rfl
  | cons p ps ih =>
    intro st
    by_cases h : skipFile p
    · have hf : (p :: ps).filter (fun q => !skipFile q) =
          ps.filter (fun q => !skipFile q) := by
        simp [List.filter_cons, h]
      rw [hf, batchFold_cons, processFile_skip agent writeOk dp od st p h, ih]
    · have hf : (p :: ps).filter (fun q => !skipFile q) =
          p :: ps.filter (fun q => !skipFile q) := by
        simp [List.filter_cons, h]
      rw [hf, batchFold_cons, batchFold_cons]
      exact ih _

theorem processFile_writeLog_mono (agent : String → AgentResult)
    (writeOk : String → Bool) (dp od : String) (st : BatchSt) (pf : List String)
    (x : String) (h : x ∈ st.writeLog) :
    x ∈ (processFile agent writeOk dp od st pf).writeLog := by
  rcases processFile_shape agent writeOk dp od st pf with ⟨_, hw⟩ | ⟨_, _, _, hw⟩
  · rw [hw]; exact h
  · rw [hw]; exact List.mem_append_left _ h

theorem batchFold_writeLog_mono (agent : String → AgentResult)
    (writeOk : String → Bool) (dp od : String) :
    ∀ (l : List (List String)) (st : BatchSt) (x : String), x ∈ st.writeLog →
      x ∈ (batchFold agent writeOk dp od l st).writeLog := by
  intro l
  induction l with
  | nil => intro st x h; exact h
  | cons p ps ih =>
    intro st x h
    rw [batchFold_cons]
    exact ih _ x (processFile_writeLog_mono agent writeOk dp od st p x h)

theorem batchFold_gen_writeLog (agent : String → AgentResult)
    (writeOk : String → Bool) (dp od : String) :
    ∀ (l : List (List String)) (st : BatchSt) (x : String),
      x ∈ (batchFold agent writeOk dp od l st).generated_files →
      x ∈ st.generated_files ∨ x ∈ (batchFold agent writeOk dp od l st).writeLog := by
  intro l
  induction l with
  | nil => intro st x h; exact Or.inl h
  | cons p ps ih =>
    intro st x h
    rw [batchFold_cons] at h ⊢
    rcases ih _ x h with hg | hl
    · rcases processFile_shape agent writeOk dp od st p with
        ⟨hgen, _⟩ | ⟨_, _, hgen, hlog⟩
      · rw [hgen] at hg; exact Or.inl hg
      · rw [hgen] at hg
        rcases List.mem_append.mp hg with hx | hx
        · exact Or.inl hx
        · refine Or.inr (batchFold_writeLog_mono agent writeOk dp od ps _ x ?_)
          rw [hlog]
          exact List.mem_append_right _ hx
    · exact Or.inr hl

theorem batchFold_gen_length (agent : String → AgentResult)
    (writeOk : String → Bool) (dp od : String) :
    ∀ (l : List (List String)) (st : BatchSt),
      (batchFold agent writeOk dp od l st).generated_files.length ≤
        st.generated_files.length + (l.filter fun p => !skipFile p).length := by
  intro l
  induction l with
  | nil => intro st; simp [batchFold]
  | cons p ps ih =>
    intro st
    rw [batchFold_cons]
    by_cases h : skipFile p
    · have hf : (p :: ps).filter (fun q => !skipFile q) =
          ps.filter (fun q => !skipFile q) := by
        simp [List.filter_cons, h]
      rw [processFile_skip agent writeOk dp od st p h, hf]
      exact ih st
    · have hf : (p :: ps).filter (fun q => !skipFile q) =
          p :: ps.filter (fun q => !skipFile q) := by
        simp [List.filter_cons, h]
      have hstep : (processFile agent writeOk dp od st p).generated_files.length ≤
          st.generated_files.length + 1 := by
        rcases processFile_shape agent writeOk dp od st p with
          ⟨hgen, _⟩ | ⟨_, _, hgen, _⟩
        · rw [hgen]; omega
        · rw [hgen]; simp
      have := ih (processFile agent writeOk dp od st p)
      rw [hf]
      simp only [List.length_cons]
      omega

theorem batchFold_writeLog_mem (agent : String → AgentResult)
    (writeOk : String → Bool) (dp od : String) :
    ∀ (l : List (List String)) (st : BatchSt) (x : String),
      x ∈ (batchFold agent writeOk dp od l st).writeLog →
      x ∈ st.writeLog ∨ ∃ pf, pf ∈ l ∧ skipFile pf = false ∧
        writeOk (outPath od pf) = true ∧ x = outPath od pf := by
  intro l
  induction l with
  | nil => intro st x h; exact Or.inl h
  | cons p ps ih =>
    intro st x h
    rw [batchFold_cons] at h
    rcases ih _ x h with hl | ⟨pf, hmem, hsk, hw, hx⟩
    · rcases processFile_shape agent writeOk dp od st p with
        ⟨_, hlog⟩ | ⟨hsk, hw, _, hlog⟩
      · rw [hlog] at hl; exact Or.inl hl
      · rw [hlog] at hl
        rcases List.mem_append.mp hl with hx | hx
        · exact Or.inl hx
        · exact Or.inr ⟨p, List.mem_cons_self p ps, hsk, hw,
            (List.mem_singleton.mp hx)⟩
    · exact Or.inr ⟨pf, List.mem_cons_of_mem p hmem, hsk, hw, hx⟩

/-- What one iteration appends to `generated_files` depends only on the
names involved, the agent verdict and the write success — not on the
filesystem contents. -/
theorem processFile_gen_formula (agent : String → AgentResult)
    (writeOk : String → Bool) (dp od : String) (st : BatchSt) (pf : List String) :
    (processFile agent writeOk dp od st pf).generated_files =
      st.generated_files ++
        (if !skipFile pf && !(agent (pathStr dp pf)).isFails &&
            writeOk (outPath od pf) then [outPath od pf] else []) := by
  by_cases hs : skipFile pf
  · simp [processFile_skip agent writeOk dp od st pf hs, hs]
  · cases hg : agent (pathStr dp pf) with
    | fails msg =>
      simp [processFile_fail agent writeOk dp od st pf msg hg, hs, hg,
        AgentResult.isFails]
    | silent =>
      by_cases hw : writeOk (outPath od pf) <;>
        cases hl : lookupFile st.fs.files (testFileName (pathStr dp pf)) <;>
          simp [processFile, hs, generate_tests, hg, hl, hw, AgentResult.isFails]
    | writes content =>
      by_cases hw : writeOk (outPath od pf) <;>
        simp [processFile, hs, generate_tests, hg, hw, FS.write,
          lookupFile_insertFile, AgentResult.isFails]

theorem batchFold_gen_eq (agent : String → AgentResult) (writeOk : String → Bool)
    (dp od : String) :
    ∀ (l : List (List String)) (st1 st2 : BatchSt),
      st1.generated_files = st2.generated_files →
      (batchFold agent writeOk dp od l st1).generated_files =
        (batchFold agent writeOk dp od l st2).generated_files := by
  intro l
  induction l with
  | nil => intro st1 st2 h; exact h
  | cons p ps ih =>
    intro st1 st2 h
    rw [batchFold_cons, batchFold_cons]
    refine ih _ _ ?_
    rw [processFile_gen_formula, processFile_gen_formula, h]

/-- A write never removes a file: lookups that succeeded before an iteration
still succeed after it. -/
theorem processFile_files_mono (agent : String → AgentResult)
    (writeOk : String → Bool) (dp od : String) (st : BatchSt) (pf : List String)
    (x : String) (h : (lookupFile st.fs.files x).isSome) :
    (lookupFile (processFile agent writeOk dp od st pf).fs.files x).isSome := by
  by_cases hs : skipFile pf
  · rw [processFile_skip agent writeOk dp od st pf hs]; exact h
  · cases hg : agent (pathStr dp pf) with
    | fails msg => rw [processFile_fail agent writeOk dp od st pf msg hg]; exact h
    | silent =>
      by_cases hw : writeOk (outPath od pf) <;>
        cases hl : lookupFile st.fs.files (testFileName (pathStr dp pf)) <;>
          simp [processFile, hs, generate_tests, hg, hl, hw, FS.write,
            lookupFile_insertFile_isSome, h]
    | writes content =>
      by_cases hw : writeOk (outPath od pf)
      · simp [processFile, hs, generate_tests, hg, hw, FS.write,
          lookupFile_insertFile]
        split_ifs <;> simp [h]
      · simp [processFile, hs, generate_tests, hg, hw, FS.write,
          lookupFile_insertFile]
        split_ifs <;> simp [h]

theorem batchFold_files_mono (agent : String → AgentResult)
    (writeOk : String → Bool) (dp od : String) :
    ∀ (l : List (List String)) (st : BatchSt) (x : String),
      (lookupFile st.fs.files x).isSome →
      (lookupFile (batchFold agent writeOk dp od l st).fs.files x).isSome := by
  intro l
  induction l with
  | nil => intro st x h; exact h
  | cons p ps ih =>
    intro st x h
    rw [batchFold_cons]
    exact ih _ x (processFile_files_mono agent writeOk dp od st p x h)

/-- The directory loop never touches the set of directories. -/
theorem processFile_dirs (agent : String → AgentResult) (writeOk : String → Bool)
    (dp od : String) (st : BatchSt) (pf : List String) :
    (processFile agent writeOk dp od st pf).fs.dirs = st.fs.dirs := by
  by_cases hs : skipFile pf
  · rw [processFile_skip agent writeOk dp od st pf hs]
  · cases hg : agent (pathStr dp pf) with
    | fails msg => rw [processFile_fail agent writeOk dp od st pf msg hg]
    | silent =>
      by_cases hw : writeOk (outPath od pf) <;>
        cases hl : lookupFile st.fs.files (testFileName (pathStr dp pf)) <;>
          simp [processFile, hs, generate_tests, hg, hl, hw, FS.write]
    | writes content =>
      by_cases hw : writeOk (outPath od pf) <;>
        simp [processFile, hs, generate_tests, hg, hw, FS.write,
          lookupFile_insertFile]

theorem batchFold_dirs (agent : String → AgentResult) (writeOk : String → Bool)
    (dp od : String) :
    ∀ (l : List (List String)) (st : BatchSt),
      (batchFold agent writeOk dp od l st).fs.dirs = st.fs.dirs := by
  intro l
  induction l with
  | nil => intro st; rfl
  | cons p ps ih =>
    intro st
    rw [batchFold_cons, ih, processFile_dirs]

/-- The paths a run of the loop binds in the filesystem, for an agent that
always writes its working-directory artifact: per eligible file, the
working-directory test file, then the output artifact when its write
succeeds. -/
def runKeys (writeOk : String → Bool) (dp od : String) :
    List (List String) → List String
  | [] => []
  | pf :: ps =>
    (if skipFile pf then []
      else testFileName (pathStr dp pf) ::
        (if writeOk (outPath od pf) then [outPath od pf] else [])) ++
      runKeys writeOk dp od ps

theorem batchFold_writes_keys (stub : String → String) (writeOk : String → Bool)
    (dp od : String) :
    ∀ (l : List (List String)) (st : BatchSt) (x : String),
      (lookupFile (batchFold (fun p => AgentResult.writes (stub p))
          writeOk dp od l st).fs.files x).isSome ↔
        (lookupFile st.fs.files x).isSome ∨ x ∈ runKeys writeOk dp od l := by
  intro l
  induction l with
  | nil => intro st x; simp [batchFold, runKeys]
  | cons p ps ih =>
    intro st x
    rw [batchFold_cons, ih]
    by_cases hs : skipFile p
    · rw [processFile_skip _ _ _ _ _ _ hs]
      simp [runKeys, hs]
    · by_cases hw : writeOk (outPath od p)
      · have hfs : (processFile (fun q => AgentResult.writes (stub q))
            writeOk dp od st p).fs.files =
            insertFile (insertFile st.fs.files (testFileName (pathStr dp p))
                (stub (pathStr dp p)))
              (outPath od p) (stub (pathStr dp p)) := by
          simp [processFile, hs, generate_tests, FS.write, lookupFile_insertFile, hw]
        rw [hfs]
        simp only [lookupFile_insertFile_isSome, runKeys, hs, Bool.false_eq_true,
          if_false, hw, if_true, List.mem_append, List.mem_cons,
          List.mem_singleton, List.not_mem_nil]
        tauto
      · have hfs : (processFile (fun q => AgentResult.writes (stub q))
            writeOk dp od st p).fs.files =
            insertFile st.fs.files (testFileName (pathStr dp p))
              (stub (pathStr dp p)) := by
          simp [processFile, hs, generate_tests, FS.write, lookupFile_insertFile, hw]
        rw [hfs]
        simp only [lookupFile_insertFile_isSome, runKeys, hs, Bool.false_eq_true,
          if_false, hw, List.mem_append, List.mem_cons, List.mem_singleton,
          List.not_mem_nil]
        tauto

/-- `mkdir (exist_ok := True)` touches no files. -/
theorem mkdirExistOk_files (fs : FS) (d : String) :
    (fs.mkdirExistOk d).files = fs.files := by
  rw [FS.mkdirExistOk]
  split <;> rfl

/-- After `mkdir (exist_ok := True)` the directory exists. -/
theorem mkdirExistOk_contains (fs : FS) (d : String) :
    (fs.mkdirExistOk d).dirs.contains d = true := by
  rw [FS.mkdirExistOk]
  by_cases h : fs.dirs.contains d
  · rw [if_pos h]; exact h
  · rw [if_neg h]; simp

/-- `mkdir (exist_ok := True)` on an existing directory is the identity. -/
theorem mkdirExistOk_of_contains (fs : FS) (d : String)
    (h : fs.dirs.contains d = true) : fs.mkdirExistOk d = fs := by
  rw [FS.mkdirExistOk, if_pos h]

/-- The names of the eligible files are the discovered names that pass the
name-based skip test. -/
theorem map_lastName_filter (l : List (List String)) :
    (l.filter fun p => !skipFile p).map lastName =
      (l.map lastName).filter (fun n => !skipName n) := by
  induction l with
  | nil => rfl
  | cons p ps ih =>
    by_cases h : skipFile p
    · have hn : skipName (lastName p) = true := h
      simp [List.filter_cons, h, hn, ih]
    · have hn : skipName (lastName p) = false := by
        simpa [skipFile] using h
      simp [List.filter_cons, h, hn, ih]

/-- A character list is a leading segment of itself followed by anything. -/
theorem charsStart_append (l m : List Char) : charsStart l (l ++ m) = true := by
  induction l with
  | nil => rfl
  | cons c cs ih => simp [charsStart, ih]

/-!
The claims.
-/

/-- C1: if invoking `generate_tests` for an eligible file X raises, then X
is excluded from the returned outcome and no artifact is written for X
(the loop state is unchanged by X's iteration), every other eligible file
is still processed to completion (the batch over any enumeration containing
X equals the batch with X removed), and no per-file error aborts or
propagates out of `generate_tests_for_directory` (its result on an existing
directory is always `ok`). -/
theorem claim1_failure_isolation (agent : String → AgentResult)
    (writeOk : String → Bool) (dp od : String) (X : List String) (msg : String)
    (h : agent (pathStr dp X) = AgentResult.fails msg) :
    (∀ st : BatchSt, processFile agent writeOk dp od st X = st) ∧
    (∀ (pre post : List (List String)) (st : BatchSt),
      batchFold agent writeOk dp od (pre ++ X :: post) st =
        batchFold agent writeOk dp od (pre ++ post) st) ∧
    (∀ (entries : List FSTree) (fs : FS),
      ∃ (outcome : List String) (fs2 : FS) (log : List String),
        generate_tests_for_directory agent writeOk dp (some entries) fs od =
          (Except.ok outcome, fs2, log)) := by
  refine ⟨fun st => processFile_fail agent writeOk dp od st X msg h, ?_, ?_⟩
  · intro pre post st
    rw [batchFold_append, batchFold_append, batchFold_cons,
      processFile_fail agent writeOk dp od _ X msg h]
  · intro entries fs
    exact ⟨_, _, _, rfl⟩

theorem claim1_witness :
    processFile (fun _ => AgentResult.fails "boom") (fun _ => true) "src" "tests"
      ⟨⟨[], []⟩, [], []⟩ ["a.py"] = ⟨⟨[], []⟩, [], []⟩ :=
  (claim1_failure_isolation (fun _ => AgentResult.fails "boom") (fun _ => true)
    "src" "tests" ["a.py"] "boom" rfl).1 ⟨⟨[], []⟩, [], []⟩

/-- C2: enumeration recurses through nested subdirectories and selects
exactly the `.py` files whose name neither begins with the test-marker
prefix nor equals the package-initializer name: whenever the discovered
`.py` files of a directory are exactly a.py, b.py, test_c.py and
__init__.py — at any nesting depth — the eligible names are exactly a.py
and b.py, the other two being skipped rather than treated as errors. -/
theorem claim2_enumeration (d : List FSTree)
    (h : ((globPyL d).map lastName).Perm
      ["a.py", "b.py", "test_c.py", "__init__.py"]) :
    ((eligiblePy d).map lastName).Perm ["a.py", "b.py"] := by
  have h2 := h.filter (fun n => !skipName n)
  have h3 : (["a.py", "b.py", "test_c.py", "__init__.py"].filter
      (fun n => !skipName n)) = ["a.py", "b.py"] := by decide
  rw [h3] at h2
  rw [eligiblePy, map_lastName_filter]
  exact h2

theorem claim2_witness :
    (((globPyL [FSTree.file "a.py", FSTree.dir "sub" [FSTree.file "test_c.py",
        FSTree.file "b.py", FSTree.dir "deep" [FSTree.file "__init__.py"]]]).map
      lastName).Perm ["a.py", "b.py", "test_c.py", "__init__.py"]) ∧
    ((eligiblePy [FSTree.file "a.py", FSTree.dir "sub" [FSTree.file "test_c.py",
        FSTree.file "b.py", FSTree.dir "deep" [FSTree.file "__init__.py"]]]).map
      lastName).Perm ["a.py", "b.py"] := by
  have hg : (globPyL [FSTree.file "a.py", FSTree.dir "sub" [FSTree.file "test_c.py",
      FSTree.file "b.py", FSTree.dir "deep" [FSTree.file "__init__.py"]]]).map
      lastName = ["a.py", "test_c.py", "b.py", "__init__.py"] := by
    simp only [globPyL]; decide
  have hperm : ((globPyL [FSTree.file "a.py", FSTree.dir "sub"
      [FSTree.file "test_c.py", FSTree.file "b.py",
        FSTree.dir "deep" [FSTree.file "__init__.py"]]]).map lastName).Perm
      ["a.py", "b.py", "test_c.py", "__init__.py"] := by
    rw [hg]; decide
  exact ⟨hperm, claim2_enumeration _ hperm⟩

/-- C3: on a nonexistent directory, `generate_tests_for_directory` fails
with the directory-not-found error before any work: the filesystem is
returned exactly as given (no artifact written, no output directory
created) and the error is the function's own result, not caught
internally. -/
theorem claim3_missing_directory (agent : String → AgentResult)
    (writeOk : String → Bool) (dp od : String) (fs : FS) :
    generate_tests_for_directory agent writeOk dp none fs od =
      (Except.error ("Directory not found: " ++ dp), fs, []) := rfl

/-- C4: if the agent call for X completes but the expected artifact
`test_<stem>.py` is absent from disk afterwards, `generate_tests` returns
the empty string rather than raising, and the directory loop still writes
an empty artifact at `outputDir/test_<stem>.py` and appends that path to
the outcome. -/
theorem claim4_silent_empty (agent : String → AgentResult)
    (writeOk : String → Bool) (dp od : String) (X : List String) (fs : FS)
    (gen log : List String)
    (hA : agent (pathStr dp X) = AgentResult.silent)
    (hAbsent : lookupFile fs.files (testFileName (pathStr dp X)) = none)
    (hSk : skipFile X = false)
    (hW : writeOk (outPath od X) = true) :
    generate_tests agent fs (pathStr dp X) = Except.ok ("", fs) ∧
    processFile agent writeOk dp od ⟨fs, gen, log⟩ X =
      ⟨fs.write (outPath od X) "", gen ++ [outPath od X],
        log ++ [outPath od X]⟩ := by
  have h1 : generate_tests agent fs (pathStr dp X) = Except.ok ("", fs) := by
    simp [generate_tests, hA, hAbsent]
  refine ⟨h1, ?_⟩
  simp [processFile, hSk, h1, hW]

theorem claim4_witness :
    generate_tests (fun _ => AgentResult.silent) ⟨[], []⟩
      (pathStr "src" ["mod.py"]) = Except.ok ("", ⟨[], []⟩) ∧
    processFile (fun _ => AgentResult.silent) (fun _ => true) "src" "tests"
      ⟨⟨[], []⟩, [], []⟩ ["mod.py"] =
      ⟨FS.write ⟨[], []⟩ (outPath "tests" ["mod.py"]) "",
        [outPath "tests" ["mod.py"]], [outPath "tests" ["mod.py"]]⟩ :=
  claim4_silent_empty (fun _ => AgentResult.silent) (fun _ => true) "src" "tests"
    ["mod.py"] ⟨[], []⟩ [] [] rfl rfl (by decide) rfl

/-- C5: the outcome of a run has at most as many entries as there are
eligible files, and every entry corresponds to an artifact write the run
itself performed (it appears in the write log; no path is appended for a
file whose write failed or was skipped). -/
theorem claim5_outcome_invariant (agent : String → AgentResult)
    (writeOk : String → Bool) (dp od : String) (entries : List FSTree) (fs : FS)
    (outcome : List String) (fs2 : FS) (log : List String)
    (h : generate_tests_for_directory agent writeOk dp (some entries) fs od =
      (Except.ok outcome, fs2, log)) :
    outcome.length ≤ (eligiblePy entries).length ∧ ∀ x ∈ outcome, x ∈ log := by
  simp only [generate_tests_for_directory, Prod.mk.injEq, Except.ok.injEq] at h
  obtain ⟨h1, h2, h3⟩ := h
  subst h1 h2 h3
  constructor
  · simpa [eligiblePy] using batchFold_gen_length agent writeOk dp od
      (globPyL entries) ⟨fs.mkdirExistOk od, [], []⟩
  · intro x hx
    rcases batchFold_gen_writeLog agent writeOk dp od (globPyL entries)
      ⟨fs.mkdirExistOk od, [], []⟩ x hx with h0 | hl
    · cases h0
    · exact hl

theorem claim5_witness :
    ["tests/test_mod.py"].length ≤ (eligiblePy [FSTree.file "mod.py"]).length ∧
    ∀ x ∈ ["tests/test_mod.py"], x ∈ ["tests/test_mod.py"] :=
  claim5_outcome_invariant (fun _ => AgentResult.writes "# t") (fun _ => true)
    "src" "tests" [FSTree.file "mod.py"] ⟨[], []⟩ ["tests/test_mod.py"]
    ⟨[("test_mod.py", "# t"), ("tests/test_mod.py", "# t")], ["tests"]⟩
    ["tests/test_mod.py"]
    (by simp only [generate_tests_for_directory, globPyL]; decide)

/-- C7: on an existing directory with no eligible files the batch returns
an empty outcome with no error; the output directory is created if absent,
its files are untouched, and creation is idempotent — an already existing
output directory is not an error. -/
theorem claim7_empty_eligible (agent : String → AgentResult)
    (writeOk : String → Bool) (dp od : String) (entries : List FSTree) (fs : FS)
    (h : eligiblePy entries = []) :
    generate_tests_for_directory agent writeOk dp (some entries) fs od =
      (Except.ok [], fs.mkdirExistOk od, []) ∧
    (fs.mkdirExistOk od).dirs.contains od = true ∧
    (fs.mkdirExistOk od).files = fs.files ∧
    (fs.dirs.contains od = true → fs.mkdirExistOk od = fs) := by
  refine ⟨?_, mkdirExistOk_contains fs od, mkdirExistOk_files fs od,
    mkdirExistOk_of_contains fs od⟩
  have hfold : batchFold agent writeOk dp od (globPyL entries)
      ⟨fs.mkdirExistOk od, [], []⟩ = ⟨fs.mkdirExistOk od, [], []⟩ := by
    rw [batchFold_filter_skip]
    rw [show (globPyL entries).filter (fun p => !skipFile p) = [] from h]
    rfl
  simp only [generate_tests_for_directory, hfold]

theorem claim7_witness :
    generate_tests_for_directory (fun _ => AgentResult.silent) (fun _ => true)
      "src" (some [FSTree.file "test_x.py"]) ⟨[], []⟩ "tests" =
      (Except.ok [], FS.mkdirExistOk ⟨[], []⟩ "tests", []) ∧
    (FS.mkdirExistOk ⟨[], []⟩ "tests").dirs.contains "tests" = true ∧
    (FS.mkdirExistOk ⟨[], []⟩ "tests").files = (⟨[], []⟩ : FS).files ∧
    ((⟨[], []⟩ : FS).dirs.contains "tests" = true →
      FS.mkdirExistOk ⟨[], []⟩ "tests" = ⟨[], []⟩) :=
  claim7_empty_eligible (fun _ => AgentResult.silent) (fun _ => true) "src"
    "tests" [FSTree.file "test_x.py"] ⟨[], []⟩
    (by simp only [eligiblePy, globPyL]; decide)

/-- C8: single-file analysis is fail-fast: when the path does not reference
an existing file, `analyze_python_file` raises the file-not-found error at
once, uncaught, so it surfaces to the caller; otherwise it returns exactly
the text contents of the file. -/
theorem claim8_analyze (fs : FS) (p : String) :
    (lookupFile fs.files p = none →
      analyze_python_file fs p = Except.error ("File not found: " ++ p)) ∧
    (∀ text, lookupFile fs.files p = some text →
      analyze_python_file fs p = Except.ok text) := by
  constructor
  · intro h; simp [analyze_python_file, h]
  · intro text h; simp [analyze_python_file, h]

theorem claim8_witness :
    analyze_python_file ⟨[("a.py", "x = 1")], []⟩ "b.py" =
      Except.error ("File not found: " ++ "b.py") ∧
    analyze_python_file ⟨[("a.py", "x = 1")], []⟩ "a.py" = Except.ok "x = 1" :=
  ⟨(claim8_analyze ⟨[("a.py", "x = 1")], []⟩ "b.py").1 rfl,
    (claim8_analyze ⟨[("a.py", "x = 1")], []⟩ "a.py").2 "x = 1" rfl⟩

/-- C9, amended: frame property of the batch — every file the run itself
writes is `outputDir/test_<stem>.py` for the stem of some eligible source
file, and (for a nonempty output directory) lies inside the output
directory (agent side effects aside).  The original claim's further
conjunct — that no discovered source file is ever modified — is false:
when the output directory nests inside the scanned directory, an artifact
path can coincide with a discovered (skipped) file's path and the batch
overwrites it; see the counterexample below. -/
theorem claim9_frame (agent : String → AgentResult) (writeOk : String → Bool)
    (dp od : String) (entries : List FSTree) (fs : FS)
    (outcome : List String) (fs2 : FS) (log : List String)
    (h : generate_tests_for_directory agent writeOk dp (some entries) fs od =
      (Except.ok outcome, fs2, log)) :
    ∀ x ∈ log, (∃ pf ∈ eligiblePy entries, x = outPath od pf) ∧
      (od ≠ "" → pyStartsWith x (od ++ "/") = true) := by
  simp only [generate_tests_for_directory, Prod.mk.injEq, Except.ok.injEq] at h
  obtain ⟨h1, h2, h3⟩ := h
  subst h1 h2 h3
  intro x hx
  rcases batchFold_writeLog_mem agent writeOk dp od (globPyL entries)
    ⟨fs.mkdirExistOk od, [], []⟩ x hx with h0 | ⟨pf, hm, hsk, hw, hx2⟩
  · cases h0
  · constructor
    · refine ⟨pf, ?_, hx2⟩
      rw [eligiblePy, List.mem_filter]
      exact ⟨hm, by simp [hsk]⟩
    · intro hod
      have hx3 : x = (od ++ "/") ++ ("test_" ++ stem (lastName pf) ++ ".py") := by
        rw [hx2, outPath, joinPath, if_neg hod]
      rw [hx3, pyStartsWith, String.data_append]
      exact charsStart_append _ _

/-- C9 counterexample: with the output directory nested inside the scanned
directory, the batch overwrites a discovered source file.  Scanning `src`
(holding `sub/test_mod.py` and `mod.py`) with output directory `src/sub`,
the discovered file `src/sub/test_mod.py` holds `# original` before the
run and `# new` — the artifact generated for `mod.py` — after it. -/
theorem claim9_counterexample :
    ["sub", "test_mod.py"] ∈
      globPyL [FSTree.dir "sub" [FSTree.file "test_mod.py"],
        FSTree.file "mod.py"] ∧
    pathStr "src" ["sub", "test_mod.py"] = "src/sub/test_mod.py" ∧
    lookupFile (⟨[("src/sub/test_mod.py", "# original")], []⟩ : FS).files
      "src/sub/test_mod.py" = some "# original" ∧
    lookupFile (generate_tests_for_directory
        (fun _ => AgentResult.writes "# new") (fun _ => true) "src"
        (some [FSTree.dir "sub" [FSTree.file "test_mod.py"],
          FSTree.file "mod.py"])
        ⟨[("src/sub/test_mod.py", "# original")], []⟩ "src/sub").2.1.files
      "src/sub/test_mod.py" = some "# new" := by
  refine ⟨?_, by decide, rfl, ?_⟩
  · simp only [globPyL]
    decide
  · simp only [generate_tests_for_directory, globPyL]
    decide

/-- On an existing directory the batch is exactly the folded loop started
from the filesystem with the output directory ensured. -/
theorem gtd_some (agent : String → AgentResult) (writeOk : String → Bool)
    (dp od : String) (entries : List FSTree) (fs : FS) :
    generate_tests_for_directory agent writeOk dp (some entries) fs od =
      (Except.ok (batchFold agent writeOk dp od (globPyL entries)
          ⟨fs.mkdirExistOk od, [], []⟩).generated_files,
        (batchFold agent writeOk dp od (globPyL entries)
          ⟨fs.mkdirExistOk od, [], []⟩).fs,
        (batchFold agent writeOk dp od (globPyL entries)
          ⟨fs.mkdirExistOk od, [], []⟩).writeLog) := rfl

/-- C6: with a stubbed agent that always produces the same artifact content
for a given file, a second run of the batch over the filesystem left by a
first run returns the same outcome paths, rebinds only the same file names
— overwriting, never duplicating: the set of existing files is unchanged —
and this component never deletes an artifact: under any agent, any file
present before a run is still present after it. -/
theorem claim6_idempotence (stub : String → String) (writeOk : String → Bool)
    (dp od : String) (entries : List FSTree) (fs : FS) :
    (generate_tests_for_directory (fun p => AgentResult.writes (stub p)) writeOk
        dp (some entries)
        (generate_tests_for_directory (fun p => AgentResult.writes (stub p))
          writeOk dp (some entries) fs od).2.1 od).1 =
      (generate_tests_for_directory (fun p => AgentResult.writes (stub p))
        writeOk dp (some entries) fs od).1 ∧
    (∀ x : String,
      (lookupFile (generate_tests_for_directory
          (fun p => AgentResult.writes (stub p)) writeOk dp (some entries)
          (generate_tests_for_directory (fun p => AgentResult.writes (stub p))
            writeOk dp (some entries) fs od).2.1 od).2.1.files x).isSome ↔
      (lookupFile (generate_tests_for_directory
          (fun p => AgentResult.writes (stub p)) writeOk dp (some entries)
          fs od).2.1.files x).isSome) ∧
    (∀ (agent : String → AgentResult) (dir : Option (List FSTree)) (fs0 : FS)
      (x : String), (lookupFile fs0.files x).isSome = true →
      (lookupFile (generate_tests_for_directory agent writeOk dp dir
        fs0 od).2.1.files x).isSome = true) := by
  refine ⟨?_, ?_, ?_⟩
  · simp only [gtd_some]
    exact congrArg Except.ok (batchFold_gen_eq
      (fun p => AgentResult.writes (stub p)) writeOk dp od (globPyL entries)
      _ _ rfl)
  · intro x
    simp only [gtd_some, batchFold_writes_keys, mkdirExistOk_files]
    tauto
  · intro agent dir fs0 x h0
    cases dir with
    | none => exact h0
    | some entries2 =>
      exact batchFold_files_mono agent writeOk dp od (globPyL entries2)
        ⟨fs0.mkdirExistOk od, [], []⟩ x
        (by rw [mkdirExistOk_files]; exact h0)

theorem claim6_witness :
    (lookupFile (generate_tests_for_directory (fun _ => AgentResult.silent)
        (fun _ => true) "src" (some [FSTree.file "mod.py"])
        ⟨[("keep.txt", "k")], []⟩ "tests").2.1.files "keep.txt").isSome = true :=
  (claim6_idempotence (fun _ => "# t") (fun _ => true) "src" "tests"
    [FSTree.file "mod.py"] ⟨[], []⟩).2.2 (fun _ => AgentResult.silent)
    (some [FSTree.file "mod.py"]) ⟨[("keep.txt", "k")], []⟩ "keep.txt"
    (by decide)

theorem claim9_witness :
    (∃ pf ∈ eligiblePy [FSTree.file "mod.py"],
      "tests/test_mod.py" = outPath "tests" pf) ∧
    (("tests" : String) ≠ "" →
      pyStartsWith "tests/test_mod.py" ("tests" ++ "/") = true) :=
  claim9_frame (fun _ => AgentResult.writes "# t") (fun _ => true)
    "src" "tests" [FSTree.file "mod.py"] ⟨[], []⟩ ["tests/test_mod.py"]
    ⟨[("test_mod.py", "# t"), ("tests/test_mod.py", "# t")], ["tests"]⟩
    ["tests/test_mod.py"]
    (by simp only [generate_tests_for_directory, globPyL]; decide)
    "tests/test_mod.py" (by decide)

/-- C10: error atomicity of the sample calculator: `calculate` raises
ValueError when the operation is neither add nor multiply, raises TypeError
when the operation is multiply and either argument is not an int or a
float, every raising case leaves the history unchanged, and on success
exactly one formatted entry is appended to the history and the result is
returned. -/
theorem claim10_calculate (c : Calculator) (operation : String) (a b : PyVal) :
    (operation ≠ "add" → operation ≠ "multiply" →
      c.calculate operation a b =
        (Except.error (PyErr.valueError "Unsupported operation"), c)) ∧
    (operation = "multiply" → (isNumber a = false ∨ isNumber b = false) →
      c.calculate operation a b =
        (Except.error (PyErr.typeError "Arguments must be numbers"), c)) ∧
    (∀ e, (c.calculate operation a b).1 = Except.error e →
      (c.calculate operation a b).2 = c) ∧
    (∀ r, (c.calculate operation a b).1 = Except.ok r →
      c.calculate operation a b =
        (Except.ok r, ⟨c.history ++ [historyEntry operation a b r]⟩)) := by
  refine ⟨?_, ?_, ?_, ?_⟩
  · intro h1 h2
    have e1 : (operation == "add") = false := beq_eq_false_iff_ne.mpr h1
    have e2 : (operation == "multiply") = false := beq_eq_false_iff_ne.mpr h2
    simp [Calculator.calculate, e1, e2]
  · rintro rfl hn
    have e1 : (("multiply" : String) == "add") = false := by decide
    rcases hn with h | h <;> simp [Calculator.calculate, e1, multiply, h]
  · intro e he
    rcases hE : (if operation == "add" then add a b
      else if operation == "multiply" then multiply a b
      else Except.error (PyErr.valueError "Unsupported operation")) with e2 | r2
    · unfold Calculator.calculate
      rw [hE]
    · unfold Calculator.calculate at he
      rw [hE] at he
      simp at he
  · intro r hr
    rcases hE : (if operation == "add" then add a b
      else if operation == "multiply" then multiply a b
      else Except.error (PyErr.valueError "Unsupported operation")) with e2 | r2
    · unfold Calculator.calculate at hr
      rw [hE] at hr
      simp at hr
    · unfold Calculator.calculate at hr ⊢
      rw [hE] at hr ⊢
      simp at hr
      subst hr
      rfl

theorem claim10_witness :
    (Calculator.mk []).calculate "sub" (PyVal.intV 1) (PyVal.intV 2) =
      (Except.error (PyErr.valueError "Unsupported operation"),
        Calculator.mk []) :=
  (claim10_calculate (Calculator.mk []) "sub" (PyVal.intV 1) (PyVal.intV 2)).1
    (by decide) (by decide)
